import Mathlib

/-
Verification development for the heat-pump simulation repository.

The repository's own code is orchestration over the external TESPy
framework: it declares component topologies, assigns specification values
to connections and components (`set_attr`), sequences two design-mode
solves (a rough initial parametrization followed by a design-point
refinement), sweeps the high pressure of connection "32", performs an
exergy analysis, and walks directories of JSON parameter files.

The shallow embedding below models exactly that orchestration layer:
  * specification stores for connections and components (what `set_attr`
    writes; `set_attr(x=None)` erases a specification),
  * a call log recording the methods run and every `nw.solve('design')`,
  * the network solver, the CoolProp `PropsSI` lookup and the exergy
    analysis as oracle functions supplied from outside (their numeric
    results are external to this repository),
  * DataFrames as an index list plus a row-lookup function, with `none`
    playing the role of NaN.
-/

/-- Value written by a `set_attr` keyword: a numeric specification or a
fluid vector `{wf: x, si: y}`. -/
inductive SpecVal where
  | num (q : ℚ)
  | fluidVec (wfFrac siFrac : ℚ)
  deriving DecidableEq

/-- A specification store: object key and attribute name to an optional
specification value (`none` models an unset / erased specification). -/
abbrev SpecMap := String → String → Option SpecVal

/-- Write one keyword of a `set_attr` call into a specification store. -/
def setSpec (m : SpecMap) (l a : String) (v : Option SpecVal) : SpecMap :=
  fun l2 a2 => if l2 = l ∧ a2 = a then v else m l2 a2

/-- The TESPy network state owned by a heat pump model: connection and
component specifications, the components dictionary (key and label), the
declared connections, the labels handed to `add_conns`, and the busses
handed to `add_busses`. -/
structure NwState where
  conn : SpecMap
  comp : SpecMap
  comps : List (String × String)
  connList : List (String × String)
  added : List String
  busses : List String

/-- Network state before `generate_components` has run. -/
def NwState.initial : NwState :=
  { conn := fun _ _ => none, comp := fun _ _ => none, comps := [],
    connList := [], added := [], busses := [] }

/-- Model `self.conns[label].set_attr(attr=value)`. Connections are
addressed by their TESPy label (for example `self.conns['c32']` carries
label "32"). -/
def NwState.setConn (s : NwState) (l a : String) (v : Option SpecVal) : NwState :=
  { s with conn := setSpec s.conn l a v }

/-- Model `self.comps[key].set_attr(attr=value)`, addressed by dict key. -/
def NwState.setComp (s : NwState) (k a : String) (v : Option SpecVal) : NwState :=
  { s with comp := setSpec s.comp k a v }

/-- Model `self.comps[key] = Component(label)`. -/
def NwState.addComp (s : NwState) (k lbl : String) : NwState :=
  { s with comps := s.comps ++ [(k, lbl)] }

/-- Model `self.conns[key] = Connection(..., label=lbl)`. -/
def NwState.addConnDef (s : NwState) (k lbl : String) : NwState :=
  { s with connList := s.connList ++ [(k, lbl)] }

/-- Model `self.nw.add_conns(*...)`. -/
def NwState.addConns (s : NwState) (ls : List String) : NwState :=
  { s with added := s.added ++ ls }

/-- Model `self.nw.add_busses(...)`. -/
def NwState.addBusses (s : NwState) (bs : List String) : NwState :=
  { s with busses := s.busses ++ bs }

/-- A heat pump model instance: its network plus the `cop` and `epsilon`
attributes (`none` models `np.nan`), and a log of the methods executed
and the design-mode solves performed. -/
structure HP where
  nw : NwState
  cop : Option ℚ
  epsilon : Option ℚ
  callLog : List String

/-- Freshly constructed model: empty network, `cop` and `epsilon` NaN. -/
def HP.initial : HP :=
  { nw := NwState.initial, cop := none, epsilon := none, callLog := [] }

/-- Record entry into one of the model's methods. -/
def logCall (s : HP) (c : String) : HP :=
  { s with callLog := s.callLog ++ [c] }

/-- Model `HeatPumpBase._solve_model` of `src/models.py`: a single
`self.nw.solve('design')` (the `iterinfo` and `print_results` keywords
have no effect on any specification). -/
def solveHP (s : HP) : HP :=
  { s with callLog := s.callLog ++ ["solve design"] }

/-- The loaded JSON parameter dictionary, as a two-level numeric lookup. -/
abbrev Params := String → String → ℚ

/-- The CoolProp `PropsSI('H', 'P', _, 'T', _, wf)` lookup, an external
equation-of-state oracle. -/
abbrev Psi := ℚ → ℚ → ℚ

/-- The repository's recurring starting-enthalpy computation
`PSI('H', 'P', p*1e5, 'T', T+273.15, wf) * 1e-3`. -/
def psiH (psi : Psi) (p T : ℚ) : ℚ :=
  psi (p * 100000) (T + 273.15) * (1 / 1000)

/-- Shorthand for a numeric specification value. -/
def specNum (q : ℚ) : Option SpecVal :=
  some (SpecVal.num q)

/-- The working-fluid vector `{wf: 1, si: 0}`. -/
def fluid_vec_wf : Option SpecVal :=
  some (SpecVal.fluidVec 1 0)

/-- The sink-fluid vector `{wf: 0, si: 1}`. -/
def fluid_vec_si : Option SpecVal :=
  some (SpecVal.fluidVec 0 1)

/-- Python `range(start, stop, step)` worker with explicit fuel. -/
def pyRangeAux (stop step : ℤ) : ℕ → ℤ → List ℤ
  | 0, _ => []
  | fuel + 1, cur => if cur < stop then cur :: pyRangeAux stop step fuel (cur + step) else []

/-- Python `[*range(start, stop, step)]` for a positive step: the fuel
`(stop - start).toNat` suffices because the cursor advances by at least 1
per element. -/
def pyRange (start stop step : ℤ) : List ℤ :=
  pyRangeAux stop step (stop - start).toNat start

theorem pyRangeAux_mem (stop step : ℤ) (hstep : 0 < step) :
    ∀ (fuel : ℕ) (cur p : ℤ), stop - cur ≤ (fuel : ℤ) →
      (p ∈ pyRangeAux stop step fuel cur ↔ cur ≤ p ∧ p < stop ∧ step ∣ (p - cur)) := by
  intro fuel
  induction fuel with
  | zero =>
    intro cur p hfuel
    simp only [pyRangeAux, List.not_mem_nil, false_iff]
    rintro ⟨h1, h2, -⟩
    omega
  | succ n ih =>
    intro cur p hfuel
    by_cases hc : cur < stop
    · have hrec := ih (cur + step) p (by omega)
      simp only [pyRangeAux, if_pos hc, List.mem_cons, hrec]
      constructor
      · rintro (rfl | ⟨h1, h2, k, hk⟩)
        · exact ⟨le_refl _, hc, ⟨0, by ring⟩⟩
        · refine ⟨by omega, h2, ⟨k + 1, ?_⟩⟩
          have : p - (cur + step) = step * k := hk
          linear_combination this
      · rintro ⟨h1, h2, k, hk⟩
        have hk0 : 0 ≤ k := by nlinarith
        rcases hk0.lt_or_eq with hkpos | hkz
        · right
          have hstepk : step ≤ step * k := le_mul_of_one_le_right hstep.le hkpos
          refine ⟨by omega, h2, ⟨k - 1, ?_⟩⟩
          linear_combination hk
        · left
          rw [← hkz, mul_zero] at hk
          omega
    · simp only [pyRangeAux, if_neg hc, List.not_mem_nil, false_iff]
      rintro ⟨h1, h2, -⟩
      omega

/-- Membership in the simulated pressure grid: exactly the integers from
`start` in steps of `step` that stay strictly below `stop`. -/
theorem pyRange_mem (start stop step p : ℤ) (hstep : 0 < step) :
    p ∈ pyRange start stop step ↔ start ≤ p ∧ p < stop ∧ step ∣ (p - start) := by
  exact pyRangeAux_mem stop step hstep (stop - start).toNat start p (Int.self_le_toNat _)

/-- Embed `HeatPumpSimple.generate_components` (src/models.py). -/
def HeatPumpSimple.generate_components (s : HP) : HP :=
  let s := logCall s "generate_components"
  let nw := s.nw
  let nw := nw.addComp "gc" "Gas cooler"
  let nw := nw.addComp "ev" "Evaporator"
  let nw := nw.addComp "va" "Valve"
  let nw := nw.addComp "cp" "Compressor"
  let nw := nw.addComp "cc" "CycleCloser"
  let nw := nw.addComp "si_in" "Sink in"
  let nw := nw.addComp "si_out" "Sink out"
  let nw := nw.addComp "sou_in" "Source in"
  let nw := nw.addComp "sou_out" "Source out"
  { s with nw := nw }

/-- Embed `HeatPumpSimple.generate_connections` (src/models.py); the final
`add_conns(*[conn for conn in self.conns])` iterates the dict keys in
insertion order. -/
def HeatPumpSimple.generate_connections (s : HP) : HP :=
  let s := logCall s "generate_connections"
  let nw := s.nw
  let nw := nw.addConnDef "c31" "31"
  let nw := nw.addConnDef "c32" "32"
  let nw := nw.addConnDef "c33" "33"
  let nw := nw.addConnDef "c34" "34"
  let nw := nw.addConnDef "c30" "30"
  let nw := nw.addConnDef "c21" "21"
  let nw := nw.addConnDef "c22" "22"
  let nw := nw.addConnDef "c11" "11"
  let nw := nw.addConnDef "c12" "12"
  let nw := nw.addConns ["c31", "c32", "c33", "c34", "c30", "c21", "c22", "c11", "c12"]
  { s with nw := nw }

/-- Embed the parametrization part of `HeatPumpSimple.init_simulation`
(src/models.py): starting values on components and connections, then the
busses.  Note the source assigns `pr2=self.params['ev']['pr1']` on the
evaporator. -/
def HeatPumpSimple.init_parametrize (P : Params) (psi : Psi) (s : HP) : HP :=
  let nw := s.nw
  let nw := nw.setComp "gc" "pr1" (specNum (P "gc" "pr1"))
  let nw := nw.setComp "gc" "pr2" (specNum (P "gc" "pr2"))
  let nw := nw.setComp "gc" "Q" (specNum (P "gc" "Q"))
  let nw := nw.setComp "ev" "pr1" (specNum (P "ev" "pr1"))
  let nw := nw.setComp "ev" "pr2" (specNum (P "ev" "pr1"))
  let nw := nw.setComp "cp" "eta_s" (specNum (P "cp" "eta_s"))
  let nw := nw.setConn "32" "h" (specNum (psiH psi (P "c32" "p") (P "c32" "T_start")))
  let nw := nw.setConn "32" "p" (specNum (P "c32" "p"))
  let nw := nw.setConn "33" "p" (specNum (P "c33" "p"))
  let nw := nw.setConn "34" "h" (specNum (psiH psi (P "c34" "p_start") (P "c34" "T_start")))
  let nw := nw.setConn "34" "fluid" fluid_vec_wf
  let nw := nw.setConn "21" "T" (specNum (P "c21" "T"))
  let nw := nw.setConn "21" "p" (specNum (P "c21" "p"))
  let nw := nw.setConn "21" "fluid" fluid_vec_si
  let nw := nw.setConn "22" "T" (specNum (P "c22" "T"))
  let nw := nw.setConn "11" "T" (specNum (P "c11" "T"))
  let nw := nw.setConn "11" "p" (specNum (P "c11" "p"))
  let nw := nw.setConn "11" "fluid" fluid_vec_si
  let nw := nw.setConn "12" "T" (specNum (P "c12" "T"))
  let nw := nw.addBusses ["power input", "heat input", "heat output"]
  { s with nw := nw }

/-- Embed `HeatPumpSimple.init_simulation` (src/models.py): the starting
parametrization followed by `self._solve_model(**kwargs)`. -/
def HeatPumpSimple.init_simulation (P : Params) (psi : Psi) (s : HP) : HP :=
  solveHP (HeatPumpSimple.init_parametrize P psi (logCall s "init_simulation"))

/-- Embed the parametrization part of `HeatPumpSimple.design_simulation`
(src/models.py). -/
def HeatPumpSimple.design_parametrize (P : Params) (s : HP) : HP :=
  let nw := s.nw
  let nw := nw.setConn "32" "h" none
  let nw := nw.setComp "gc" "ttd_l" (specNum (P "gc" "ttd_l"))
  let nw := nw.setConn "33" "p" none
  let nw := nw.setComp "ev" "ttd_l" (specNum (P "ev" "ttd_l"))
  let nw := nw.setConn "34" "h" none
  let nw := nw.setConn "34" "Td_bp" (specNum (P "c34" "Td_bp"))
  { s with nw := nw }

/-- Embed `HeatPumpSimple.design_simulation` (src/models.py): the final
parametrization, `self._solve_model(**kwargs)` and the COP computation
`abs(Q)/P` from the solved gas cooler duty `Qv` and bus power `Pv`. -/
def HeatPumpSimple.design_simulation (P : Params) (Qv Pv : ℚ) (s : HP) : HP :=
  let s := solveHP (HeatPumpSimple.design_parametrize P (logCall s "design_simulation"))
  { s with cop := some (|Qv| / Pv) }

/-- Embed `HeatPumpIHX.generate_components` (src/models.py). -/
def HeatPumpIHX.generate_components (s : HP) : HP :=
  let s := logCall s "generate_components"
  let nw := s.nw
  let nw := nw.addComp "gc" "Gas cooler"
  let nw := nw.addComp "ev" "Evaporator"
  let nw := nw.addComp "va" "Valve"
  let nw := nw.addComp "cp" "Compressor"
  let nw := nw.addComp "ihx" "Internal Heat Exchanger"
  let nw := nw.addComp "cc" "CycleCloser"
  let nw := nw.addComp "si_in" "Sink in"
  let nw := nw.addComp "si_out" "Sink out"
  let nw := nw.addComp "sou_in" "Source in"
  let nw := nw.addComp "sou_out" "Source out"
  { s with nw := nw }

/-- Embed `HeatPumpIHX.generate_connections` (src/models.py). -/
def HeatPumpIHX.generate_connections (s : HP) : HP :=
  let s := logCall s "generate_connections"
  let nw := s.nw
  let nw := nw.addConnDef "c31" "31"
  let nw := nw.addConnDef "c32" "32"
  let nw := nw.addConnDef "c33" "33"
  let nw := nw.addConnDef "c34" "34"
  let nw := nw.addConnDef "c35" "35"
  let nw := nw.addConnDef "c36" "36"
  let nw := nw.addConnDef "c30" "30"
  let nw := nw.addConnDef "c21" "21"
  let nw := nw.addConnDef "c22" "22"
  let nw := nw.addConnDef "c11" "11"
  let nw := nw.addConnDef "c12" "12"
  let nw := nw.addConns ["c31", "c32", "c33", "c34", "c35", "c36", "c30", "c21", "c22", "c11", "c12"]
  { s with nw := nw }

/-- Embed the parametrization part of `HeatPumpIHX.init_simulation`
(src/models.py); the source assigns `pr2` of the evaporator and of the
internal heat exchanger from the respective `pr1` parameter. -/
def HeatPumpIHX.init_parametrize (P : Params) (psi : Psi) (s : HP) : HP :=
  let nw := s.nw
  let nw := nw.setComp "gc" "pr1" (specNum (P "gc" "pr1"))
  let nw := nw.setComp "gc" "pr2" (specNum (P "gc" "pr2"))
  let nw := nw.setComp "gc" "Q" (specNum (P "gc" "Q"))
  let nw := nw.setComp "ev" "pr1" (specNum (P "ev" "pr1"))
  let nw := nw.setComp "ev" "pr2" (specNum (P "ev" "pr1"))
  let nw := nw.setComp "ihx" "pr1" (specNum (P "ihx" "pr1"))
  let nw := nw.setComp "ihx" "pr2" (specNum (P "ihx" "pr1"))
  let nw := nw.setComp "cp" "eta_s" (specNum (P "cp" "eta_s"))
  let nw := nw.setConn "36" "h" (specNum (psiH psi (P "c36" "p_start") (P "c36" "T_start")))
  let nw := nw.setConn "36" "p" (specNum (P "c36" "p_start"))
  let nw := nw.setConn "36" "fluid" fluid_vec_wf
  let nw := nw.setConn "32" "h" (specNum (psiH psi (P "c32" "p") (P "c32" "T_start")))
  let nw := nw.setConn "32" "p" (specNum (P "c32" "p"))
  let nw := nw.setConn "35" "h" (specNum (psiH psi (P "c35" "p_start") (P "c35" "T_start")))
  let nw := nw.setConn "21" "T" (specNum (P "c21" "T"))
  let nw := nw.setConn "21" "p" (specNum (P "c21" "p"))
  let nw := nw.setConn "21" "fluid" fluid_vec_si
  let nw := nw.setConn "22" "T" (specNum (P "c22" "T"))
  let nw := nw.setConn "11" "T" (specNum (P "c11" "T"))
  let nw := nw.setConn "11" "p" (specNum (P "c11" "p"))
  let nw := nw.setConn "11" "fluid" fluid_vec_si
  let nw := nw.setConn "12" "T" (specNum (P "c12" "T"))
  let nw := nw.addBusses ["power input", "heat input", "heat output"]
  { s with nw := nw }

/-- Embed `HeatPumpIHX.init_simulation` (src/models.py). -/
def HeatPumpIHX.init_simulation (P : Params) (psi : Psi) (s : HP) : HP :=
  solveHP (HeatPumpIHX.init_parametrize P psi (logCall s "init_simulation"))

/-- Embed the parametrization part of `HeatPumpIHX.design_simulation`
(src/models.py). -/
def HeatPumpIHX.design_parametrize (P : Params) (s : HP) : HP :=
  let nw := s.nw
  let nw := nw.setConn "36" "h" none
  let nw := nw.setConn "36" "p" none
  let nw := nw.setComp "ev" "ttd_l" (specNum (P "ev" "ttd_l"))
  let nw := nw.setComp "ihx" "ttd_u" (specNum (P "ihx" "ttd_u"))
  let nw := nw.setConn "32" "h" none
  let nw := nw.setComp "gc" "ttd_l" (specNum (P "gc" "ttd_l"))
  let nw := nw.setConn "35" "h" none
  let nw := nw.setConn "35" "Td_bp" (specNum (P "c35" "Td_bp"))
  { s with nw := nw }

/-- Embed `HeatPumpIHX.design_simulation` (src/models.py). -/
def HeatPumpIHX.design_simulation (P : Params) (Qv Pv : ℚ) (s : HP) : HP :=
  let s := solveHP (HeatPumpIHX.design_parametrize P (logCall s "design_simulation"))
  { s with cop := some (|Qv| / Pv) }

/-- Embed `HeatPumpParallelComp.generate_components` (src/models.py). -/
def HeatPumpParallelComp.generate_components (s : HP) : HP :=
  let s := logCall s "generate_components"
  let nw := s.nw
  let nw := nw.addComp "gc" "Gas cooler"
  let nw := nw.addComp "ev" "Evaporator"
  let nw := nw.addComp "va_1" "Valve 1"
  let nw := nw.addComp "va_2" "Valve 2"
  let nw := nw.addComp "cp_1" "Compressor 1"
  let nw := nw.addComp "cp_2" "Compressor 2"
  let nw := nw.addComp "ihx_1" "Internal Heat Exchanger 1"
  let nw := nw.addComp "ihx_2" "Internal Heat Exchanger 2"
  let nw := nw.addComp "fl" "Flash Tank"
  let nw := nw.addComp "mg" "Merge"
  let nw := nw.addComp "cc" "CycleCloser"
  let nw := nw.addComp "si_in" "Sink in"
  let nw := nw.addComp "si_out" "Sink out"
  let nw := nw.addComp "sou_in" "Source in"
  let nw := nw.addComp "sou_out" "Source out"
  { s with nw := nw }

/-- Embed `HeatPumpParallelComp.generate_connections` (src/models.py). -/
def HeatPumpParallelComp.generate_connections (s : HP) : HP :=
  let s := logCall s "generate_connections"
  let nw := s.nw
  let nw := nw.addConnDef "c31" "31"
  let nw := nw.addConnDef "c32" "32"
  let nw := nw.addConnDef "c33" "33"
  let nw := nw.addConnDef "c34" "34"
  let nw := nw.addConnDef "c35" "35"
  let nw := nw.addConnDef "c36" "36"
  let nw := nw.addConnDef "c37" "37"
  let nw := nw.addConnDef "c38" "38"
  let nw := nw.addConnDef "c39" "39"
  let nw := nw.addConnDef "c40" "40"
  let nw := nw.addConnDef "c41" "41"
  let nw := nw.addConnDef "c42" "42"
  let nw := nw.addConnDef "c43" "43"
  let nw := nw.addConnDef "c30" "30"
  let nw := nw.addConnDef "c21" "21"
  let nw := nw.addConnDef "c22" "22"
  let nw := nw.addConnDef "c11" "11"
  let nw := nw.addConnDef "c12" "12"
  let nw := nw.addConns ["c31", "c32", "c33", "c34", "c35", "c36", "c37", "c38",
    "c39", "c40", "c41", "c42", "c43", "c30", "c21", "c22", "c11", "c12"]
  { s with nw := nw }

/-- Embed the parametrization part of
`HeatPumpParallelComp.init_simulation` (src/models.py). -/
def HeatPumpParallelComp.init_parametrize (P : Params) (psi : Psi) (s : HP) : HP :=
  let nw := s.nw
  let nw := nw.setComp "ev" "pr1" (specNum (P "ev" "pr1"))
  let nw := nw.setComp "ev" "pr2" (specNum (P "ev" "pr2"))
  let nw := nw.setComp "gc" "pr1" (specNum (P "gc" "pr1"))
  let nw := nw.setComp "gc" "pr2" (specNum (P "gc" "pr2"))
  let nw := nw.setComp "gc" "Q" (specNum (P "gc" "Q"))
  let nw := nw.setComp "ihx_1" "pr1" (specNum (P "ihx_1" "pr1"))
  let nw := nw.setComp "ihx_1" "pr2" (specNum (P "ihx_1" "pr2"))
  let nw := nw.setComp "ihx_2" "pr1" (specNum (P "ihx_2" "pr1"))
  let nw := nw.setComp "ihx_2" "pr2" (specNum (P "ihx_2" "pr2"))
  let nw := nw.setComp "cp_1" "eta_s" (specNum (P "cp_1" "eta_s"))
  let nw := nw.setComp "cp_2" "eta_s" (specNum (P "cp_2" "eta_s"))
  let nw := nw.setConn "32" "h" (specNum (psiH psi (P "c32" "p") (P "c32" "T_start")))
  let nw := nw.setConn "32" "p" (specNum (P "c32" "p"))
  let nw := nw.setConn "34" "p" (specNum (P "c34" "p"))
  let nw := nw.setConn "34" "fluid" fluid_vec_wf
  let nw := nw.setConn "37" "p" (specNum (P "c37" "p"))
  let nw := nw.setConn "38" "h" (specNum (psiH psi (P "c38" "p_start") (P "c38" "T_start")))
  let nw := nw.setConn "39" "h" (specNum (psiH psi (P "c39" "p_start") (P "c39" "T_start")))
  let nw := nw.setConn "42" "h" (specNum (psiH psi (P "c42" "p_start") (P "c42" "T_start")))
  let nw := nw.setConn "21" "T" (specNum (P "c21" "T"))
  let nw := nw.setConn "21" "p" (specNum (P "c21" "p"))
  let nw := nw.setConn "21" "fluid" fluid_vec_si
  let nw := nw.setConn "22" "T" (specNum (P "c22" "T"))
  let nw := nw.setConn "11" "T" (specNum (P "c11" "T"))
  let nw := nw.setConn "11" "p" (specNum (P "c11" "p"))
  let nw := nw.setConn "11" "fluid" fluid_vec_si
  let nw := nw.setConn "12" "T" (specNum (P "c12" "T"))
  let nw := nw.addBusses ["power input", "heat input", "heat output"]
  { s with nw := nw }

/-- Embed `HeatPumpParallelComp.init_simulation` (src/models.py). -/
def HeatPumpParallelComp.init_simulation (P : Params) (psi : Psi) (s : HP) : HP :=
  solveHP (HeatPumpParallelComp.init_parametrize P psi (logCall s "init_simulation"))

/-- Embed the parametrization part of
`HeatPumpParallelComp.design_simulation` (src/models.py). -/
def HeatPumpParallelComp.design_parametrize (P : Params) (s : HP) : HP :=
  let nw := s.nw
  let nw := nw.setConn "37" "p" none
  let nw := nw.setConn "38" "h" none
  let nw := nw.setConn "38" "Td_bp" (specNum (P "c38" "Td_bp"))
  let nw := nw.setComp "ev" "ttd_l" (specNum (P "ev" "ttd_l"))
  let nw := nw.setConn "39" "h" none
  let nw := nw.setComp "ihx_1" "ttd_u" (specNum (P "ihx_1" "ttd_u"))
  let nw := nw.setConn "42" "h" none
  let nw := nw.setComp "ihx_2" "ttd_u" (specNum (P "ihx_2" "ttd_u"))
  let nw := nw.setConn "32" "h" none
  let nw := nw.setComp "gc" "ttd_l" (specNum (P "gc" "ttd_l"))
  let nw := nw.setConn "35" "h" none
  let nw := nw.setConn "35" "Td_bp" (specNum (P "c35" "Td_bp"))
  { s with nw := nw }

/-- Embed `HeatPumpParallelComp.design_simulation` (src/models.py). -/
def HeatPumpParallelComp.design_simulation (P : Params) (Qv Pv : ℚ) (s : HP) : HP :=
  let s := solveHP (HeatPumpParallelComp.design_parametrize P (logCall s "design_simulation"))
  { s with cop := some (|Qv| / Pv) }

/-- Embed `HeatPumpIntercooling.generate_components` (src/models.py). -/
def HeatPumpIntercooling.generate_components (s : HP) : HP :=
  let s := logCall s "generate_components"
  let nw := s.nw
  let nw := nw.addComp "gc" "Gas cooler"
  let nw := nw.addComp "ev" "Evaporator"
  let nw := nw.addComp "va_1" "Valve 1"
  let nw := nw.addComp "va_2" "Valve 2"
  let nw := nw.addComp "cp_1" "Compressor 1"
  let nw := nw.addComp "cp_2" "Compressor 2"
  let nw := nw.addComp "ihx" "Internal Heat Exchanger"
  let nw := nw.addComp "fl" "Flash Tank"
  let nw := nw.addComp "mg" "Merge"
  let nw := nw.addComp "cc" "CycleCloser"
  let nw := nw.addComp "si_in" "Sink in"
  let nw := nw.addComp "si_out" "Sink out"
  let nw := nw.addComp "sou_in" "Source in"
  let nw := nw.addComp "sou_out" "Source out"
  { s with nw := nw }

/-- Embed `HeatPumpIntercooling.generate_connections` (src/models.py and,
identically, src/chapter 5/heatpumps/models/intercooling.py). -/
def HeatPumpIntercooling.generate_connections (s : HP) : HP :=
  let s := logCall s "generate_connections"
  let nw := s.nw
  let nw := nw.addConnDef "c31" "31"
  let nw := nw.addConnDef "c32" "32"
  let nw := nw.addConnDef "c33" "33"
  let nw := nw.addConnDef "c34" "34"
  let nw := nw.addConnDef "c35" "35"
  let nw := nw.addConnDef "c36" "36"
  let nw := nw.addConnDef "c37" "37"
  let nw := nw.addConnDef "c38" "38"
  let nw := nw.addConnDef "c39" "39"
  let nw := nw.addConnDef "c40" "40"
  let nw := nw.addConnDef "c41" "41"
  let nw := nw.addConnDef "c30" "30"
  let nw := nw.addConnDef "c21" "21"
  let nw := nw.addConnDef "c22" "22"
  let nw := nw.addConnDef "c11" "11"
  let nw := nw.addConnDef "c12" "12"
  let nw := nw.addConns ["c31", "c32", "c33", "c34", "c35", "c36", "c37", "c38",
    "c39", "c40", "c41", "c30", "c21", "c22", "c11", "c12"]
  { s with nw := nw }

/-- Embed the parametrization part of
`HeatPumpIntercooling.init_simulation`, which is textually identical in
src/models.py and in src/chapter 5/heatpumps/models/intercooling.py.
The starting enthalpies go onto connections "38", "32" and "37". -/
def HeatPumpIntercooling.init_parametrize (P : Params) (psi : Psi) (s : HP) : HP :=
  let nw := s.nw
  let nw := nw.setComp "ev" "pr1" (specNum (P "ev" "pr1"))
  let nw := nw.setComp "ev" "pr2" (specNum (P "ev" "pr2"))
  let nw := nw.setComp "gc" "pr1" (specNum (P "gc" "pr1"))
  let nw := nw.setComp "gc" "pr2" (specNum (P "gc" "pr2"))
  let nw := nw.setComp "gc" "Q" (specNum (P "gc" "Q"))
  let nw := nw.setComp "ihx" "pr1" (specNum (P "ihx" "pr1"))
  let nw := nw.setComp "ihx" "pr2" (specNum (P "ihx" "pr2"))
  let nw := nw.setComp "cp_1" "eta_s" (specNum (P "cp_1" "eta_s"))
  let nw := nw.setComp "cp_2" "eta_s" (specNum (P "cp_2" "eta_s"))
  let nw := nw.setConn "38" "h" (specNum (psiH psi (P "c38" "p") (P "c38" "T_start")))
  let nw := nw.setConn "38" "p" (specNum (P "c38" "p"))
  let nw := nw.setConn "38" "fluid" fluid_vec_wf
  let nw := nw.setConn "39" "p" (specNum (P "c39" "p"))
  let nw := nw.setConn "32" "h" (specNum (psiH psi (P "c32" "p") (P "c32" "T_start")))
  let nw := nw.setConn "32" "p" (specNum (P "c32" "p"))
  let nw := nw.setConn "37" "h" (specNum (psiH psi (P "c37" "p_start") (P "c37" "T_start")))
  let nw := nw.setConn "21" "T" (specNum (P "c21" "T"))
  let nw := nw.setConn "21" "p" (specNum (P "c21" "p"))
  let nw := nw.setConn "21" "fluid" fluid_vec_si
  let nw := nw.setConn "22" "T" (specNum (P "c22" "T"))
  let nw := nw.setConn "11" "T" (specNum (P "c11" "T"))
  let nw := nw.setConn "11" "p" (specNum (P "c11" "p"))
  let nw := nw.setConn "11" "fluid" fluid_vec_si
  let nw := nw.setConn "12" "T" (specNum (P "c12" "T"))
  let nw := nw.addBusses ["power input", "heat input", "heat output"]
  { s with nw := nw }

/-- Embed `HeatPumpIntercooling.init_simulation` (src/models.py and the
chapter 5 file alike). -/
def HeatPumpIntercooling.init_simulation (P : Params) (psi : Psi) (s : HP) : HP :=
  solveHP (HeatPumpIntercooling.init_parametrize P psi (logCall s "init_simulation"))

/-- Embed the parametrization part of
`HeatPumpIntercooling.design_simulation` as written in src/models.py:
connection "37" receives `set_attr(p=None, Td_bp=...)` there — its `p`
was never specified, and its starting enthalpy `h` is not erased. -/
def HeatPumpIntercooling.design_parametrize (P : Params) (s : HP) : HP :=
  let nw := s.nw
  let nw := nw.setConn "38" "h" none
  let nw := nw.setConn "38" "p" none
  let nw := nw.setComp "ihx" "ttd_u" (specNum (P "ihx" "ttd_u"))
  let nw := nw.setConn "37" "p" none
  let nw := nw.setConn "37" "Td_bp" (specNum (P "c37" "Td_bp"))
  let nw := nw.setComp "ev" "ttd_l" (specNum (P "ev" "ttd_l"))
  let nw := nw.setConn "32" "h" none
  let nw := nw.setComp "gc" "ttd_l" (specNum (P "gc" "ttd_l"))
  { s with nw := nw }

/-- Embed `HeatPumpIntercooling.design_simulation` (src/models.py). -/
def HeatPumpIntercooling.design_simulation (P : Params) (Qv Pv : ℚ) (s : HP) : HP :=
  let s := solveHP (HeatPumpIntercooling.design_parametrize P (logCall s "design_simulation"))
  { s with cop := some (|Qv| / Pv) }

/-- Embed the parametrization part of
`HeatPumpIntercooling.design_simulation` as written in
src/chapter 5/heatpumps/models/intercooling.py: there connection "37"
receives `set_attr(h=None, p=None, Td_bp=...)`, erasing the starting
enthalpy. -/
def HeatPumpIntercoolingCh5.design_parametrize (P : Params) (s : HP) : HP :=
  let nw := s.nw
  let nw := nw.setConn "38" "h" none
  let nw := nw.setConn "38" "p" none
  let nw := nw.setComp "ihx" "ttd_u" (specNum (P "ihx" "ttd_u"))
  let nw := nw.setConn "37" "h" none
  let nw := nw.setConn "37" "p" none
  let nw := nw.setConn "37" "Td_bp" (specNum (P "c37" "Td_bp"))
  let nw := nw.setComp "ev" "ttd_l" (specNum (P "ev" "ttd_l"))
  let nw := nw.setConn "32" "h" none
  let nw := nw.setComp "gc" "ttd_l" (specNum (P "gc" "ttd_l"))
  { s with nw := nw }

/-- Embed `HeatPumpIntercooling.design_simulation` of the chapter 5 file. -/
def HeatPumpIntercoolingCh5.design_simulation (P : Params) (Qv Pv : ℚ) (s : HP) : HP :=
  let s := solveHP (HeatPumpIntercoolingCh5.design_parametrize P (logCall s "design_simulation"))
  { s with cop := some (|Qv| / Pv) }

/-- The four concrete heat pump model classes. -/
inductive HPModel where
  | simple
  | ihx
  | parallel
  | intercooling
  deriving DecidableEq

/-- Dispatch `generate_components` to the concrete class. -/
def HPModel.gen_components : HPModel → HP → HP
  | .simple => HeatPumpSimple.generate_components
  | .ihx => HeatPumpIHX.generate_components
  | .parallel => HeatPumpParallelComp.generate_components
  | .intercooling => HeatPumpIntercooling.generate_components

/-- Dispatch `generate_connections` to the concrete class. -/
def HPModel.gen_connections : HPModel → HP → HP
  | .simple => HeatPumpSimple.generate_connections
  | .ihx => HeatPumpIHX.generate_connections
  | .parallel => HeatPumpParallelComp.generate_connections
  | .intercooling => HeatPumpIntercooling.generate_connections

/-- Dispatch `init_simulation` to the concrete class. -/
def HPModel.init_sim : HPModel → Params → Psi → HP → HP
  | .simple => HeatPumpSimple.init_simulation
  | .ihx => HeatPumpIHX.init_simulation
  | .parallel => HeatPumpParallelComp.init_simulation
  | .intercooling => HeatPumpIntercooling.init_simulation

/-- Dispatch `design_simulation` to the concrete class. -/
def HPModel.design_sim : HPModel → Params → ℚ → ℚ → HP → HP
  | .simple => HeatPumpSimple.design_simulation
  | .ihx => HeatPumpIHX.design_simulation
  | .parallel => HeatPumpParallelComp.design_simulation
  | .intercooling => HeatPumpIntercooling.design_simulation

/-- Embed `HeatPumpBase.run_model` (src/models.py line 59 and
src/chapter 5/heatpumps/models/base.py line 71 are identical):
`generate_components`, `generate_connections`, `init_simulation`,
`design_simulation`, applied to a freshly constructed model. -/
def HPModel.run_model (m : HPModel) (P : Params) (psi : Psi) (Qv Pv : ℚ) : HP :=
  m.design_sim P Qv Pv (m.init_sim P psi (m.gen_connections (m.gen_components HP.initial)))

/-- The arguments the repository passes to the external exergy analysis:
the fuel busses, the product bus, and the ambient state handed to
`analyse`. -/
structure EanInput where
  E_F : List String
  E_P : List String
  pamb : ℚ
  Tamb : ℚ
  deriving DecidableEq

/-- Embed `HeatPumpBase.perform_exergy_analysis`
(src/chapter 5/heatpumps/models/base.py): construct the analysis with
`E_F=[busses['power input'], busses['heat input']]` and
`E_P=[busses['heat output']]`, analyse at
`pamb=params['ambient']['p'], Tamb=params['ambient']['T']`, and store the
analysis's `network_data['epsilon']` in `self.epsilon`.  The numeric
analysis itself is the external oracle `analyse`. -/
def HeatPumpBase.perform_exergy_analysis (analyse : EanInput → ℚ) (P : Params)
    (s : HP) : HP × EanInput :=
  let ean : EanInput :=
    { E_F := ["power input", "heat input"], E_P := ["heat output"],
      pamb := P "ambient" "p", Tamb := P "ambient" "T" }
  ({ s with epsilon := some (analyse ean) }, ean)

/-- Embed `HeatPumpSimple.perfrom_exergy_analysis` (src/models.py, the
method name carries the source's spelling): same busses, ambient state
read from `params['amb']`. -/
def HeatPumpSimple.perfrom_exergy_analysis (analyse : EanInput → ℚ) (P : Params)
    (s : HP) : HP × EanInput :=
  let ean : EanInput :=
    { E_F := ["power input", "heat input"], E_P := ["heat output"],
      pamb := P "amb" "p", Tamb := P "amb" "T" }
  ({ s with epsilon := some (analyse ean) }, ean)

/-- A saved network state file: the repository only ever saves together
with the final residual of the solve that produced it. -/
structure Solution where
  res : ℚ
  deriving DecidableEq

/-- The `results` DataFrame of `run_p_high_analysis`: index of high
pressures, and per row the COP and epsilon cells (`none` models NaN). -/
structure DF2 where
  index : List ℤ
  data : ℤ → Option ℚ × Option ℚ

/-- Write one whole row (both cells are assigned in the loop body). -/
def DF2.setRow (df : DF2) (p : ℤ) (row : Option ℚ × Option ℚ) : DF2 :=
  { df with data := fun q => if q = p then row else df.data q }

/-- The `E_Ds` DataFrame: index of high pressures, and per row a map from
column label (component label or `E_D_tot`) to an optional cell. -/
structure DFE where
  index : List ℤ
  data : ℤ → String → Option ℚ

/-- Write one row of the `E_Ds` DataFrame. -/
def DFE.setRow (df : DFE) (p : ℤ) (row : String → Option ℚ) : DFE :=
  { df with data := fun q => if q = p then row else df.data q }

/-- The `skip_comps` list of `run_p_high_analysis`. -/
def skip_comps : List String :=
  ["Source in", "Source out", "Sink in", "Sink out", "CycleCloser"]

/-- One iteration's `E_Ds` row update: every component of the model whose
label is not in `skip_comps` gets its exergy destruction ratio `y_Dk`,
then `E_D_tot` is set to the network exergy destruction times `1e-6`. -/
def edsRow (comps : List (String × String)) (ydk : String → ℚ) (ED : ℚ)
    (row : String → Option ℚ) : String → Option ℚ :=
  let row := comps.foldl
    (fun r c =>
      if c.2 ∈ skip_comps then r
      else fun col => if col = c.2 then some (ydk c.2) else r col)
    row
  fun col => if col = "E_D_tot" then some (ED * (1 / 1000000)) else row col

/-- What the external solver and exergy analysis return at one sweep
pressure: `solveRes` is the final residual of `nw.solve` (`none` models an
exception raised while solving), `Qgc` and `Pbus` are the solved gas
cooler duty and power-bus value, and `analyse` carries the analysis's
epsilon, network `E_D` and per-component `y_Dk` (`none` models an
exception raised while analysing). -/
structure IterOutcome where
  solveRes : Option ℚ
  Qgc : ℚ
  Pbus : ℚ
  analyse : Option (ℚ × ℚ × (String → ℚ))

/-- The mutable state of the `run_p_high_analysis` sweep: the network
specifications, the saved state file at `stable_solution_path`, the two
DataFrames, the model's `epsilon` attribute, and the log of pressures at
which `nw.solve('design', init_path=...)` was invoked. -/
structure SweepState where
  nw : NwState
  file : Option Solution
  results : DF2
  eds : DFE
  epsilon : Option ℚ
  solveCalls : List ℤ

/-- Embed one iteration of the `for p_high in p_high_range` loop of
`HeatPumpBase.run_p_high_analysis`
(src/chapter 5/heatpumps/models/base.py, lines 148-206):
`self.conns['c32'].set_attr(p=p_high)`; then, inside `try`:
solve (saving the network to `stable_solution_path` when the final
residual is below `1e-3`), perform the exergy analysis, record the COP
(replaced by NaN when above 10 or below 1), record epsilon (replaced by
NaN when at least 1 or below 0, and only otherwise record the `E_Ds`
row).  An exception from the solver or the analysis is caught and only
printed. -/
def sweepStep (o : ℤ → IterOutcome) (p : ℤ) (st : SweepState) : SweepState :=
  let st := { st with
    nw := st.nw.setConn "32" "p" (specNum (p : ℚ)),
    solveCalls := st.solveCalls ++ [p] }
  match (o p).solveRes with
  | none => st
  | some res =>
    let st := if res < 1 / 1000 then { st with file := some ⟨res⟩ } else st
    match (o p).analyse with
    | none => st
    | some (eps, ED, ydk) =>
      let st := { st with epsilon := some eps }
      let cop := |(o p).Qgc| / (o p).Pbus
      let copRec : Option ℚ := if 10 < cop ∨ cop < 1 then none else some cop
      let epsRec : Option ℚ := if 1 ≤ eps ∨ eps < 0 then none else some eps
      let st := { st with results := st.results.setRow p (copRec, epsRec) }
      if 1 ≤ eps ∨ eps < 0 then st
      else { st with eds := st.eds.setRow p (edsRow st.nw.comps ydk ED (st.eds.data p)) }

/-- The whole sweep loop as a fold. -/
def sweepRun (o : ℤ → IterOutcome) (ps : List ℤ) (st : SweepState) : SweepState :=
  ps.foldl (fun s p => sweepStep o p s) st

/-- The successive states after each sweep iteration. -/
def sweepTrace (o : ℤ → IterOutcome) : SweepState → List ℤ → List SweepState
  | _, [] => []
  | st, p :: ps =>
    let st1 := sweepStep o p st
    st1 :: sweepTrace o st1 ps

/-- The sweep state at entry of `run_p_high_analysis`: the empty-but-indexed
DataFrames `pd.DataFrame(index=p_high_range, columns=['COP', 'epsilon'])`
and `pd.DataFrame(index=p_high_range)`. -/
def initSweepState (idx : List ℤ) (nw0 : NwState) (f0 : Option Solution) : SweepState :=
  { nw := nw0, file := f0,
    results := { index := idx, data := fun _ => (none, none) },
    eds := { index := idx, data := fun _ _ => none },
    epsilon := none, solveCalls := [] }

/-- Embed `HeatPumpBase.run_p_high_analysis(p_min, p_max, stepwidth)`
(src/chapter 5/heatpumps/models/base.py): build the pressure grid
`[*range(p_min, p_max, stepwidth)]`, the two DataFrames indexed by it,
and run the sweep loop.  `nw0` and `f0` are the network specifications
and the `stable_solution_path` file left behind by `design_simulation`. -/
def run_p_high_analysis (o : ℤ → IterOutcome) (pmin pmax stepwidth : ℤ)
    (nw0 : NwState) (f0 : Option Solution) : SweepState :=
  sweepRun o (pyRange pmin pmax stepwidth)
    (initSweepState (pyRange pmin pmax stepwidth) nw0 f0)

/-- Embed `HeatPumpBase._solve_model` of
src/chapter 5/heatpumps/models/base.py: `self.nw.solve('design')` (with
final residual `res` returned by the external solver), then
`self.nw.save(self.stable_solution_path)` only when `res < 1e-3`. -/
def HeatPumpBase.solve_model (res : ℚ) (m : NwState × Option Solution) :
    NwState × Option Solution :=
  (m.1, if res < 1 / 1000 then some ⟨res⟩ else m.2)

/-- The C10 invariant: whatever the file at `stable_solution_path` holds
was produced by a solve whose final residual was below `1e-3`. -/
def fileConverged : Option Solution → Prop
  | none => True
  | some sol => sol.res < 1 / 1000

/-- A loaded JSON parameter file as the drivers in src/run.py use it:
`['setup']['type']`, `['setup']['refrig']`, `['ambient']['p']`, and all
remaining numeric entries (for instance
`['sensitivity']['p_high_min']`). -/
structure FileParams where
  setupType : String
  setupRefrig : String
  ambientP : ℚ
  rest : String → String → ℚ

/-- A `json.dump(params, file, indent=4)` call: the content written back
to the walked file and the indentation it was serialized with. -/
structure DiskWrite where
  content : FileParams
  indent : ℕ

/-- The `if/elif` dispatch over `params['setup']['type']` shared by all
driver functions in src/run.py and src/chapter 5/run.py: the four known
type strings construct the correspondingly named class; any other string
is matched by no branch. -/
def dispatch_model (t : String) : Option HPModel :=
  if t = "HeatPumpSimple" then some HPModel.simple
  else if t = "HeatPumpIHX" then some HPModel.ihx
  else if t = "HeatPumpParallelComp" then some HPModel.parallel
  else if t = "HeatPumpIntercooling" then some HPModel.intercooling
  else none

/-- The sweep call a driver makes on a constructed model: the class that
was constructed and run (`run_model` followed by `run_p_high_analysis`)
and the pressure bounds read from `params['sensitivity']`. -/
def driverAction (p : FileParams) : Option (HPModel × ℚ × ℚ) :=
  (dispatch_model p.setupType).map
    (fun m => (m, p.rest "sensitivity" "p_high_min", p.rest "sensitivity" "p_high_max"))

/-- Embed the per-file body of `multiplot_p_high_analysis_hp`
(src/run.py lines 118-145): load the file, set
`params['ambient']['p'] = 1.013`, write the file back with `indent=4`,
then skip the file when its type differs from the requested `hptype`,
otherwise construct and run the matching model class. -/
def process_file_hp (hptype : String) (p : FileParams) :
    DiskWrite × Option (HPModel × ℚ × ℚ) :=
  let p2 := { p with ambientP := 1013 / 1000 }
  let w : DiskWrite := { content := p2, indent := 4 }
  if hptype = p2.setupType then (w, driverAction p2) else (w, none)

/-- Embed the per-file body of `multiplot_p_high_analysis_refrig`
(src/run.py lines 194-221): identical disk write, but the skip condition
compares `refrig.upper()` with `params['setup']['refrig'].upper()`. -/
def process_file_refrig (refrig : String) (p : FileParams) :
    DiskWrite × Option (HPModel × ℚ × ℚ) :=
  let p2 := { p with ambientP := 1013 / 1000 }
  let w : DiskWrite := { content := p2, indent := 4 }
  if refrig.toUpper = p2.setupRefrig.toUpper then (w, driverAction p2) else (w, none)

/-- Embed the per-file body of `multiplot_p_high_analysis_refrig_combined`
(src/run.py lines 264-308): in src/run.py the disk write is active and
precedes the refrigerant filter exactly as in the plain variant. -/
def process_file_refrig_combined (refrig : String) (p : FileParams) :
    DiskWrite × Option (HPModel × ℚ × ℚ) :=
  let p2 := { p with ambientP := 1013 / 1000 }
  let w : DiskWrite := { content := p2, indent := 4 }
  if refrig.toUpper = p2.setupRefrig.toUpper then (w, driverAction p2) else (w, none)

/-- Embed the per-file body of `multiplot_p_high_analysis_hp_combined`
(src/run.py lines 341-384). -/
def process_file_hp_combined (hptype : String) (p : FileParams) :
    DiskWrite × Option (HPModel × ℚ × ℚ) :=
  let p2 := { p with ambientP := 1013 / 1000 }
  let w : DiskWrite := { content := p2, indent := 4 }
  if hptype = p2.setupType then (w, driverAction p2) else (w, none)

theorem sweepStep_nw (o : ℤ → IterOutcome) (p : ℤ) (st : SweepState) :
    (sweepStep o p st).nw = st.nw.setConn "32" "p" (specNum (p : ℚ)) := by
  rcases hs : (o p).solveRes with _ | res
  · simp [sweepStep, hs]
  · rcases ha : (o p).analyse with _ | ⟨eps, ED, ydk⟩
    · simp only [sweepStep, hs, ha]
      split_ifs <;> rfl
    · simp only [sweepStep, hs, ha]
      split_ifs <;> rfl

theorem sweepStep_solveCalls (o : ℤ → IterOutcome) (p : ℤ) (st : SweepState) :
    (sweepStep o p st).solveCalls = st.solveCalls ++ [p] := by
  rcases hs : (o p).solveRes with _ | res
  · simp [sweepStep, hs]
  · rcases ha : (o p).analyse with _ | ⟨eps, ED, ydk⟩
    · simp only [sweepStep, hs, ha]
      split_ifs <;> rfl
    · simp only [sweepStep, hs, ha]
      split_ifs <;> rfl

theorem sweepStep_results_index (o : ℤ → IterOutcome) (p : ℤ) (st : SweepState) :
    (sweepStep o p st).results.index = st.results.index := by
  rcases hs : (o p).solveRes with _ | res
  · simp [sweepStep, hs]
  · rcases ha : (o p).analyse with _ | ⟨eps, ED, ydk⟩
    · simp only [sweepStep, hs, ha]
      split_ifs <;> rfl
    · simp only [sweepStep, hs, ha]
      split_ifs <;> rfl

theorem sweepStep_eds_index (o : ℤ → IterOutcome) (p : ℤ) (st : SweepState) :
    (sweepStep o p st).eds.index = st.eds.index := by
  rcases hs : (o p).solveRes with _ | res
  · simp [sweepStep, hs]
  · rcases ha : (o p).analyse with _ | ⟨eps, ED, ydk⟩
    · simp only [sweepStep, hs, ha]
      split_ifs <;> rfl
    · simp only [sweepStep, hs, ha]
      split_ifs <;> rfl

theorem sweepStep_file_eq (o : ℤ → IterOutcome) (p : ℤ) (st : SweepState) :
    (sweepStep o p st).file = st.file
      ∨ ∃ res, (sweepStep o p st).file = some ⟨res⟩ ∧ res < 1 / 1000 := by
  rcases hs : (o p).solveRes with _ | res
  · left
    simp [sweepStep, hs]
  · by_cases h1 : res < 1 / 1000
    · right
      refine ⟨res, ?_, h1⟩
      rcases ha : (o p).analyse with _ | ⟨eps, ED, ydk⟩
      · simp only [sweepStep, hs, ha]
        split_ifs <;> rfl
      · simp only [sweepStep, hs, ha]
        split_ifs <;> rfl
    · left
      rcases ha : (o p).analyse with _ | ⟨eps, ED, ydk⟩
      · simp only [sweepStep, hs, ha]
        split_ifs <;> rfl
      · simp only [sweepStep, hs, ha]
        split_ifs <;> rfl

theorem sweepStep_file (o : ℤ → IterOutcome) (p : ℤ) (st : SweepState)
    (h : fileConverged st.file) : fileConverged (sweepStep o p st).file := by
  rcases sweepStep_file_eq o p st with he | ⟨res, he, hres⟩
  · rw [he]
    exact h
  · rw [he]
    exact hres

theorem sweepStep_results_frame (o : ℤ → IterOutcome) (p q : ℤ) (st : SweepState)
    (h : q ≠ p) : (sweepStep o p st).results.data q = st.results.data q := by
  rcases hs : (o p).solveRes with _ | res
  · simp [sweepStep, hs]
  · rcases ha : (o p).analyse with _ | ⟨eps, ED, ydk⟩
    · simp only [sweepStep, hs, ha]
      split_ifs <;> rfl
    · simp only [sweepStep, hs, ha, DF2.setRow]
      split_ifs <;> simp [h]

theorem sweepStep_eds_frame (o : ℤ → IterOutcome) (p q : ℤ) (st : SweepState)
    (h : q ≠ p) : (sweepStep o p st).eds.data q = st.eds.data q := by
  rcases hs : (o p).solveRes with _ | res
  · simp [sweepStep, hs]
  · rcases ha : (o p).analyse with _ | ⟨eps, ED, ydk⟩
    · simp only [sweepStep, hs, ha]
      split_ifs <;> rfl
    · simp only [sweepStep, hs, ha, DFE.setRow]
      split_ifs <;> simp [h]

theorem sweepStep_fail_results (o : ℤ → IterOutcome) (p q : ℤ) (st : SweepState)
    (h : (o p).solveRes = none ∨ (o p).analyse = none) :
    (sweepStep o p st).results.data q = st.results.data q := by
  rcases hs : (o p).solveRes with _ | res
  · simp [sweepStep, hs]
  · rcases ha : (o p).analyse with _ | ⟨eps, ED, ydk⟩
    · simp only [sweepStep, hs, ha]
      split_ifs <;> rfl
    · rcases h with h | h
      · rw [hs] at h; exact absurd h (by simp)
      · rw [ha] at h; exact absurd h (by simp)

theorem sweepStep_fail_eds (o : ℤ → IterOutcome) (p q : ℤ) (st : SweepState)
    (h : (o p).solveRes = none ∨ (o p).analyse = none) :
    (sweepStep o p st).eds.data q = st.eds.data q := by
  rcases hs : (o p).solveRes with _ | res
  · simp [sweepStep, hs]
  · rcases ha : (o p).analyse with _ | ⟨eps, ED, ydk⟩
    · simp only [sweepStep, hs, ha]
      split_ifs <;> rfl
    · rcases h with h | h
      · rw [hs] at h; exact absurd h (by simp)
      · rw [ha] at h; exact absurd h (by simp)

theorem sweepRun_results_index (o : ℤ → IterOutcome) (ps : List ℤ) (st : SweepState) :
    (sweepRun o ps st).results.index = st.results.index := by
  induction ps generalizing st with
  | nil => rfl
  | cons p rest ih =>
    rw [sweepRun, List.foldl_cons]
    exact (ih (sweepStep o p st)).trans (sweepStep_results_index o p st)

theorem sweepRun_eds_index (o : ℤ → IterOutcome) (ps : List ℤ) (st : SweepState) :
    (sweepRun o ps st).eds.index = st.eds.index := by
  induction ps generalizing st with
  | nil => rfl
  | cons p rest ih =>
    rw [sweepRun, List.foldl_cons]
    exact (ih (sweepStep o p st)).trans (sweepStep_eds_index o p st)

theorem sweepRun_solveCalls (o : ℤ → IterOutcome) (ps : List ℤ) (st : SweepState) :
    (sweepRun o ps st).solveCalls = st.solveCalls ++ ps := by
  induction ps generalizing st with
  | nil => simp [sweepRun]
  | cons p rest ih =>
    have hstep : sweepRun o (p :: rest) st = sweepRun o rest (sweepStep o p st) := rfl
    rw [hstep, ih (sweepStep o p st), sweepStep_solveCalls]
    simp

theorem sweepRun_fail_row (o : ℤ → IterOutcome) (ps : List ℤ) (p : ℤ) (st : SweepState)
    (h : (o p).solveRes = none ∨ (o p).analyse = none) :
    (sweepRun o ps st).results.data p = st.results.data p
      ∧ (sweepRun o ps st).eds.data p = st.eds.data p := by
  induction ps generalizing st with
  | nil => exact ⟨rfl, rfl⟩
  | cons q rest ih =>
    have hstep : sweepRun o (q :: rest) st = sweepRun o rest (sweepStep o q st) := rfl
    rw [hstep]
    obtain ⟨ihr, ihe⟩ := ih (sweepStep o q st)
    by_cases hq : p = q
    · subst hq
      exact ⟨ihr.trans (sweepStep_fail_results o p p st h),
        ihe.trans (sweepStep_fail_eds o p p st h)⟩
    · exact ⟨ihr.trans (sweepStep_results_frame o q p st hq),
        ihe.trans (sweepStep_eds_frame o q p st hq)⟩

theorem append_pair (xs : List String) (a b : String) :
    (xs ++ [a]) ++ [b] = xs ++ [a, b] := by
  simp

/-- C1: for every heat pump model (HeatPumpSimple, HeatPumpIHX,
HeatPumpParallelComp, HeatPumpIntercooling), `run_model` executes exactly
`generate_components`, `generate_connections`, `init_simulation` (which
performs exactly one design-mode solve, as its final network action) and
`design_simulation` (likewise ending in one design-mode solve), in this
order; the complete log of a `run_model` call contains exactly two
`solve('design')` calls and no others. -/
theorem run_model_solve_sequence (m : HPModel) (P : Params) (psi : Psi)
    (Qv Pv : ℚ) (s : HP) :
    (m.gen_components s).callLog = s.callLog ++ ["generate_components"]
    ∧ (m.gen_connections s).callLog = s.callLog ++ ["generate_connections"]
    ∧ (m.init_sim P psi s).callLog = s.callLog ++ ["init_simulation", "solve design"]
    ∧ (m.design_sim P Qv Pv s).callLog = s.callLog ++ ["design_simulation", "solve design"]
    ∧ (m.run_model P psi Qv Pv).callLog =
        ["generate_components", "generate_connections",
         "init_simulation", "solve design", "design_simulation", "solve design"] := by
  cases m <;>
    exact ⟨rfl, rfl, append_pair s.callLog _ _, append_pair s.callLog _ _, rfl⟩

/-- Concrete parameter dictionary and property oracle used to evaluate
the models on an explicit input. -/
def paramsC : Params := fun _ _ => 5

/-- Concrete stand-in for the CoolProp enthalpy lookup. -/
def psiC : Psi := fun p T => p + T

/-- The intercooling model right after `init_simulation` (the
initialization code is identical in src/models.py and in the chapter 5
file). -/
def hpIntercoolingInit : HP :=
  HeatPumpIntercooling.init_simulation paramsC psiC
    (HeatPumpIntercooling.generate_connections
      (HeatPumpIntercooling.generate_components HP.initial))

/-- C2: evaluation of the code at the failing input.  In src/models.py,
`HeatPumpIntercooling.init_simulation` puts a starting enthalpy on
connection "37", but `design_simulation` leaves that enthalpy
specification exactly as it was (it erases `p`, which was never set,
instead of `h`), so the second design-mode solve still carries the rough
starting value; the chapter 5 version of the same class erases it. -/
theorem intercooling_c37_start_enthalpy_kept :
    (hpIntercoolingInit.nw.conn "37" "h").isSome = true
    ∧ (HeatPumpIntercooling.design_simulation paramsC 3 2 hpIntercoolingInit).nw.conn "37" "h"
        = hpIntercoolingInit.nw.conn "37" "h"
    ∧ (HeatPumpIntercoolingCh5.design_simulation paramsC 3 2 hpIntercoolingInit).nw.conn "37" "h"
        = none := by
  exact ⟨rfl, rfl, rfl⟩

/-- C3: along the `run_p_high_analysis` sweep, the specification state
handed to each successive solve differs from the previous one only in
the pressure of connection "32": every other connection specification,
every component specification, and the component, connection and bus
structure are unchanged between successive iterations (and from the
state `design_simulation` left behind). -/
theorem sweep_only_modifies_c32_pressure (o : ℤ → IterOutcome)
    (st0 : SweepState) (ps : List ℤ) :
    List.Chain'
      (fun a b =>
        (∀ l att, ¬(l = "32" ∧ att = "p") → b.nw.conn l att = a.nw.conn l att)
        ∧ b.nw.comp = a.nw.comp
        ∧ b.nw.comps = a.nw.comps
        ∧ b.nw.connList = a.nw.connList
        ∧ b.nw.added = a.nw.added
        ∧ b.nw.busses = a.nw.busses)
      (st0 :: sweepTrace o st0 ps) := by
  induction ps generalizing st0 with
  | nil => simp [sweepTrace]
  | cons p rest ih =>
    have hstep : sweepTrace o st0 (p :: rest)
        = sweepStep o p st0 :: sweepTrace o (sweepStep o p st0) rest := rfl
    rw [hstep, List.chain'_cons]
    refine ⟨?_, ih (sweepStep o p st0)⟩
    rw [sweepStep_nw o p st0]
    refine ⟨?_, rfl, rfl, rfl, rfl, rfl⟩
    intro l att hne
    simp only [NwState.setConn, setSpec]
    rw [if_neg hne]

/-- C4: with integer bounds `p_min < p_max` and a positive `stepwidth`,
`run_p_high_analysis` attempts a solve at exactly the pressures
`p_min, p_min + stepwidth, ...` strictly below `p_max` (so `p_max`
itself is never simulated), and both returned DataFrames are indexed by
exactly this grid. -/
theorem run_p_high_grid (pmin pmax stepwidth : ℤ) (o : ℤ → IterOutcome)
    (nw0 : NwState) (f0 : Option Solution)
    (hlt : pmin < pmax) (hstep : 0 < stepwidth) :
    (run_p_high_analysis o pmin pmax stepwidth nw0 f0).results.index
        = pyRange pmin pmax stepwidth
    ∧ (run_p_high_analysis o pmin pmax stepwidth nw0 f0).eds.index
        = pyRange pmin pmax stepwidth
    ∧ (run_p_high_analysis o pmin pmax stepwidth nw0 f0).solveCalls
        = pyRange pmin pmax stepwidth
    ∧ (∀ p, p ∈ (run_p_high_analysis o pmin pmax stepwidth nw0 f0).solveCalls
        ↔ pmin ≤ p ∧ p < pmax ∧ stepwidth ∣ (p - pmin))
    ∧ pmax ∉ (run_p_high_analysis o pmin pmax stepwidth nw0 f0).solveCalls := by
  have hcalls : (run_p_high_analysis o pmin pmax stepwidth nw0 f0).solveCalls
      = pyRange pmin pmax stepwidth := by
    have h := sweepRun_solveCalls o (pyRange pmin pmax stepwidth)
      (initSweepState (pyRange pmin pmax stepwidth) nw0 f0)
    simpa [run_p_high_analysis, initSweepState] using h
  refine ⟨?_, ?_, hcalls, ?_, ?_⟩
  · exact sweepRun_results_index o (pyRange pmin pmax stepwidth) _
  · exact sweepRun_eds_index o (pyRange pmin pmax stepwidth) _
  · intro p
    rw [hcalls]
    exact pyRange_mem pmin pmax stepwidth p hstep
  · rw [hcalls, pyRange_mem pmin pmax stepwidth pmax hstep]
    rintro ⟨-, h2, -⟩
    exact absurd h2 (lt_irrefl pmax)

/-- An oracle whose solver throws at every pressure. -/
def oracleNone : ℤ → IterOutcome :=
  fun _ => { solveRes := none, Qgc := 0, Pbus := 1, analyse := none }

/-- Witness for C4 at `p_min = 1`, `p_max = 4`, `stepwidth = 2`. -/
theorem run_p_high_grid_witness :
    (1 : ℤ) < 4 ∧ (0 : ℤ) < 2
    ∧ (run_p_high_analysis oracleNone 1 4 2 NwState.initial none).solveCalls
        = pyRange 1 4 2
    ∧ pyRange 1 4 2 = [1, 3] :=
  ⟨by decide, by decide,
    (run_p_high_grid 1 4 2 oracleNone NwState.initial none (by decide) (by decide)).2.2.1,
    by decide⟩

/-- The concrete parameter file used in the C5 counterexample: its
`['setup']['type']` is one of the four recognized strings. -/
def fileIHX : FileParams :=
  { setupType := "HeatPumpIHX", setupRefrig := "R600", ambientP := 1,
    rest := fun _ _ => 0 }

/-- C5 counterexample: a loaded parameter file of type "HeatPumpIHX"
(one of the four strings) is not constructed by
`multiplot_p_high_analysis_hp('HeatPumpSimple')`: the driver skips it at
the topology filter before any branch runs, so no instance is
constructed and run for this file. -/
theorem multiplot_skipped_file_not_constructed :
    fileIHX.setupType
        ∈ ["HeatPumpSimple", "HeatPumpIHX", "HeatPumpParallelComp", "HeatPumpIntercooling"]
    ∧ (process_file_hp "HeatPumpSimple" fileIHX).2 = none := by
  exact ⟨by decide, rfl⟩

/-- C5 amended: for every loaded parameter file that passes the driver's
topology respectively refrigerant filter, the `if/elif` chain constructs
and runs an instance of the class named by `['setup']['type']` (the four
known strings map to the correspondingly named classes), and any other
type string is constructed by no branch. -/
theorem multiplot_dispatch_matches_type (hptype refrig : String) (p : FileParams) :
    (process_file_hp hptype p).2
        = (if hptype = p.setupType
            then driverAction { p with ambientP := 1013 / 1000 } else none)
    ∧ (process_file_refrig refrig p).2
        = (if refrig.toUpper = p.setupRefrig.toUpper
            then driverAction { p with ambientP := 1013 / 1000 } else none)
    ∧ dispatch_model "HeatPumpSimple" = some HPModel.simple
    ∧ dispatch_model "HeatPumpIHX" = some HPModel.ihx
    ∧ dispatch_model "HeatPumpParallelComp" = some HPModel.parallel
    ∧ dispatch_model "HeatPumpIntercooling" = some HPModel.intercooling
    ∧ (∀ t : String,
        t ∈ ["HeatPumpSimple", "HeatPumpIHX", "HeatPumpParallelComp", "HeatPumpIntercooling"]
        ∨ dispatch_model t = none) := by
  refine ⟨?_, ?_, rfl, rfl, rfl, rfl, ?_⟩
  · by_cases h : hptype = p.setupType <;> simp [process_file_hp, h]
  · by_cases h : refrig.toUpper = p.setupRefrig.toUpper <;> simp [process_file_refrig, h]
  · intro t
    by_cases h1 : t = "HeatPumpSimple"
    · exact Or.inl (by simp [h1])
    by_cases h2 : t = "HeatPumpIHX"
    · exact Or.inl (by simp [h2])
    by_cases h3 : t = "HeatPumpParallelComp"
    · exact Or.inl (by simp [h3])
    by_cases h4 : t = "HeatPumpIntercooling"
    · exact Or.inl (by simp [h4])
    exact Or.inr (by simp [dispatch_model, h1, h2, h3, h4])

/-- C6: every parameter file iterated by the four multiplot driver
functions of src/run.py is written back to disk with
`['ambient']['p'] = 1.013` and `indent=4`, with all other entries
unchanged; the write does not depend on the topology or refrigerant
filter, so files that are subsequently skipped are still rewritten. -/
theorem multiplot_rewrites_every_walked_file (hptype refrig : String) (p : FileParams) :
    (process_file_hp hptype p).1
        = { content := { p with ambientP := 1013 / 1000 }, indent := 4 }
    ∧ (process_file_refrig refrig p).1
        = { content := { p with ambientP := 1013 / 1000 }, indent := 4 }
    ∧ (process_file_refrig_combined refrig p).1
        = { content := { p with ambientP := 1013 / 1000 }, indent := 4 }
    ∧ (process_file_hp_combined hptype p).1
        = { content := { p with ambientP := 1013 / 1000 }, indent := 4 } := by
  refine ⟨?_, ?_, ?_, ?_⟩
  · simp only [process_file_hp]
    split_ifs <;> rfl
  · simp only [process_file_refrig]
    split_ifs <;> rfl
  · simp only [process_file_refrig_combined]
    split_ifs <;> rfl
  · simp only [process_file_hp_combined]
    split_ifs <;> rfl

/-- C7: `perform_exergy_analysis` constructs the exergy analysis with
fuel `E_F = [busses['power input'], busses['heat input']]` and product
`E_P = [busses['heat output']]`, analyses at the ambient pressure and
temperature taken from the model's params (`['ambient']` in the
chapter 5 base class, `['amb']` in the src/models.py variant), and
stores the analysis's network epsilon in `self.epsilon`. -/
theorem exergy_analysis_setup (analyse : EanInput → ℚ) (P : Params) (s : HP) :
    (HeatPumpBase.perform_exergy_analysis analyse P s).2.E_F = ["power input", "heat input"]
    ∧ (HeatPumpBase.perform_exergy_analysis analyse P s).2.E_P = ["heat output"]
    ∧ (HeatPumpBase.perform_exergy_analysis analyse P s).2.pamb = P "ambient" "p"
    ∧ (HeatPumpBase.perform_exergy_analysis analyse P s).2.Tamb = P "ambient" "T"
    ∧ (HeatPumpBase.perform_exergy_analysis analyse P s).1.epsilon
        = some (analyse (HeatPumpBase.perform_exergy_analysis analyse P s).2)
    ∧ (HeatPumpSimple.perfrom_exergy_analysis analyse P s).2.E_F = ["power input", "heat input"]
    ∧ (HeatPumpSimple.perfrom_exergy_analysis analyse P s).2.E_P = ["heat output"]
    ∧ (HeatPumpSimple.perfrom_exergy_analysis analyse P s).2.pamb = P "amb" "p"
    ∧ (HeatPumpSimple.perfrom_exergy_analysis analyse P s).2.Tamb = P "amb" "T"
    ∧ (HeatPumpSimple.perfrom_exergy_analysis analyse P s).1.epsilon
        = some (analyse (HeatPumpSimple.perfrom_exergy_analysis analyse P s).2) := by
  exact ⟨rfl, rfl, rfl, rfl, rfl, rfl, rfl, rfl, rfl, rfl⟩

/-- An oracle returning the same successful solve and analysis at every
pressure, used to state C8. -/
def constOutcome (res Qgc Pbus eps ED : ℚ) (ydk : String → ℚ) : ℤ → IterOutcome :=
  fun _ => { solveRes := some res, Qgc := Qgc, Pbus := Pbus, analyse := some (eps, ED, ydk) }

/-- C8: at a successfully solved and analysed sweep pressure, the
recorded COP `abs(Q)/P` is replaced by NaN exactly when it is greater
than 10 or less than 1; the recorded epsilon is replaced by NaN exactly
when it is at least 1 or below 0; and the per-component exergy
destruction ratios together with `E_D_tot` are written into the `E_Ds`
row exactly when epsilon lies in `[0, 1)`. -/
theorem sweep_records_with_validity_filters (st : SweepState) (p : ℤ)
    (res Qgc Pbus eps ED : ℚ) (ydk : String → ℚ) :
    ((sweepStep (constOutcome res Qgc Pbus eps ED ydk) p st).results.data p).1
        = (if 10 < |Qgc| / Pbus ∨ |Qgc| / Pbus < 1 then none else some (|Qgc| / Pbus))
    ∧ ((sweepStep (constOutcome res Qgc Pbus eps ED ydk) p st).results.data p).2
        = (if 0 ≤ eps ∧ eps < 1 then some eps else none)
    ∧ (sweepStep (constOutcome res Qgc Pbus eps ED ydk) p st).eds.data p
        = (if 0 ≤ eps ∧ eps < 1
            then edsRow st.nw.comps ydk ED (st.eds.data p)
            else st.eds.data p) := by
  by_cases hgood : 0 ≤ eps ∧ eps < 1
  · have hbad : ¬(1 ≤ eps ∨ eps < 0) := by
      push_neg
      exact ⟨by linarith [hgood.2], hgood.1⟩
    simp only [sweepStep, constOutcome, DF2.setRow, DFE.setRow, NwState.setConn, hbad,
      if_false, if_pos hgood, ite_false, ite_true]
    refine ⟨?_, ?_, ?_⟩ <;> first
      | trivial
      | (split_ifs <;> simp_all)
  · have hbad : 1 ≤ eps ∨ eps < 0 := by
      rcases not_and_or.mp hgood with h | h
      · exact Or.inr (lt_of_not_le h)
      · exact Or.inl (le_of_not_lt h)
    simp only [sweepStep, constOutcome, DF2.setRow, DFE.setRow, NwState.setConn, hbad,
      if_true, if_neg hgood, ite_false, ite_true]
    refine ⟨?_, ?_, ?_⟩ <;> first
      | trivial
      | (split_ifs <;> simp_all)

/-- Helper for C9: the rows of a pressure whose solve or analysis throws
are never written during the whole sweep (the failing iteration writes
nothing, and every other iteration writes only its own row). -/
theorem run_p_high_fail_rows (o : ℤ → IterOutcome) (pmin pmax stepwidth : ℤ)
    (nw0 : NwState) (f0 : Option Solution) (p : ℤ)
    (h : (o p).solveRes = none ∨ (o p).analyse = none) :
    (run_p_high_analysis o pmin pmax stepwidth nw0 f0).results.data p = (none, none)
      ∧ (run_p_high_analysis o pmin pmax stepwidth nw0 f0).eds.data p = fun _ => none := by
  obtain ⟨hr, he⟩ := sweepRun_fail_row o (pyRange pmin pmax stepwidth) p
    (initSweepState (pyRange pmin pmax stepwidth) nw0 f0) h
  exact ⟨hr, he⟩

/-- C9: an exception raised while solving or analysing at an individual
sweep pressure is caught inside the loop: the result row and the `E_Ds`
row of that pressure keep their NaN values, the loop still visits every
pressure of the grid (the solve log covers the full grid regardless of
failures), and the function returns both DataFrames with their index
intact. -/
theorem sweep_exception_caught (o : ℤ → IterOutcome) (pmin pmax stepwidth : ℤ)
    (nw0 : NwState) (f0 : Option Solution) (p : ℤ)
    (h : (o p).solveRes = none ∨ (o p).analyse = none) :
    (run_p_high_analysis o pmin pmax stepwidth nw0 f0).results.data p = (none, none)
    ∧ (∀ col, (run_p_high_analysis o pmin pmax stepwidth nw0 f0).eds.data p col = none)
    ∧ (run_p_high_analysis o pmin pmax stepwidth nw0 f0).results.index
        = pyRange pmin pmax stepwidth
    ∧ (run_p_high_analysis o pmin pmax stepwidth nw0 f0).eds.index
        = pyRange pmin pmax stepwidth
    ∧ (run_p_high_analysis o pmin pmax stepwidth nw0 f0).solveCalls
        = pyRange pmin pmax stepwidth := by
  obtain ⟨hr, he⟩ := run_p_high_fail_rows o pmin pmax stepwidth nw0 f0 p h
  refine ⟨hr, ?_, ?_, ?_, ?_⟩
  · intro col
    rw [he]
  · exact sweepRun_results_index o (pyRange pmin pmax stepwidth) _
  · exact sweepRun_eds_index o (pyRange pmin pmax stepwidth) _
  · have hc := sweepRun_solveCalls o (pyRange pmin pmax stepwidth)
      (initSweepState (pyRange pmin pmax stepwidth) nw0 f0)
    simpa [run_p_high_analysis, initSweepState] using hc

/-- Witness for C9: the all-failing oracle at pressure 2 of the sweep
from 1 to 3. -/
theorem sweep_exception_caught_witness :
    ((oracleNone 2).solveRes = none ∨ (oracleNone 2).analyse = none)
    ∧ (run_p_high_analysis oracleNone 1 3 1 NwState.initial none).results.data 2
        = (none, none) :=
  ⟨Or.inl rfl,
    (sweep_exception_caught oracleNone 1 3 1 NwState.initial none 2 (Or.inl rfl)).1⟩

/-- Helper for C10: every state along the sweep keeps the invariant that
the file at `stable_solution_path`, when present, came from a converged
solve. -/
theorem sweepTrace_fileConverged (o : ℤ → IterOutcome) (ps : List ℤ) :
    ∀ (st0 : SweepState), fileConverged st0.file →
      ∀ st ∈ st0 :: sweepTrace o st0 ps, fileConverged st.file := by
  induction ps with
  | nil =>
    intro st0 h st hst
    simp only [sweepTrace, List.mem_singleton] at hst
    rw [hst]
    exact h
  | cons p rest ih =>
    intro st0 h st hst
    have htr : sweepTrace o st0 (p :: rest)
        = sweepStep o p st0 :: sweepTrace o (sweepStep o p st0) rest := rfl
    rw [htr] at hst
    rcases List.mem_cons.mp hst with hst0 | hst1
    · rw [hst0]
      exact h
    · exact ih (sweepStep o p st0) (sweepStep_file o p st0 h) st hst1

/-- C10: the file at `stable_solution_path` is written only after a
solve whose final residual is below `1e-3` — by `_solve_model` of the
chapter 5 base class and by the conditional save inside the
`run_p_high_analysis` sweep alike — so every state along the sweep (in
particular the one each `solve(init_path=...)` reads its start values
from) carries a previously converged solution whenever the file is
present. -/
theorem stable_solution_only_converged :
    (∀ (res : ℚ) (m : NwState × Option Solution),
        fileConverged m.2 → fileConverged (HeatPumpBase.solve_model res m).2)
    ∧ (∀ (o : ℤ → IterOutcome) (st0 : SweepState) (ps : List ℤ),
        fileConverged st0.file →
          ∀ st ∈ st0 :: sweepTrace o st0 ps, fileConverged st.file) := by
  constructor
  · intro res m h
    show fileConverged (if res < 1 / 1000 then some ⟨res⟩ else m.2)
    split_ifs with h1
    · exact h1
    · exact h
  · intro o st0 ps h
    exact sweepTrace_fileConverged o ps st0 h

/-- Witness for C10: a non-converged `_solve_model` leaves the absent
file absent, and a one-pressure sweep from an absent file keeps the
invariant at every state. -/
theorem stable_solution_only_converged_witness :
    fileConverged (HeatPumpBase.solve_model 2 (NwState.initial, none)).2
    ∧ (∀ st ∈ initSweepState [1] NwState.initial none
          :: sweepTrace oracleNone (initSweepState [1] NwState.initial none) [1],
        fileConverged st.file) :=
  ⟨stable_solution_only_converged.1 2 (NwState.initial, none) trivial,
    stable_solution_only_converged.2 oracleNone (initSweepState [1] NwState.initial none) [1] trivial⟩
